import Mathlib

/-!
Shallow embedding of the KServe v1beta1 InferenceService admission validation
engine, translated from
pkg/apis/serving/v1beta1/inference_service_validation.go.

Go pointers become Option, Go error values become an explicit error type with
one constructor per distinct error site, and a nil error becomes none.  The
fail-fast sequencing of the Go code (return err on the first non-nil error)
is embedded as firstErrList over the per-rule results.  Constants and helper
contracts that live outside the provided sources (the constants package, the
utils package, the exactly-one-implementation capability check) are modelled
from the specification and marked as such in their doc comments.
-/

namespace KServe

/-- Environment variable of a container, mirroring corev1.EnvVar. -/
structure EnvVar where
  name : String
  value : String
  deriving DecidableEq, Repr

/-- Container, keeping only the fields the validation engine reads: its name,
its environment, and its declared resource type names. -/
structure Container where
  name : String
  env : List EnvVar
  resources : List String
  deriving DecidableEq, Repr

/-- Resource metric source of an AutoScaling entry (Go pointers as Option). -/
structure ResourceMetricSource where
  name : Option String
  targetAverageUtilization : Option Int
  targetAverageValueBytes : Option Int
  deriving DecidableEq, Repr

/-- External metric source of an AutoScaling entry. -/
structure ExternalMetricSource where
  backend : Option String
  query : String
  targetValue : Option Int
  deriving DecidableEq, Repr

/-- One entry of AutoScalingSpec.metrics, tagged by its type string. -/
structure MetricsSpec where
  type : String
  resource : Option ResourceMetricSource
  external : Option ExternalMetricSource
  deriving DecidableEq, Repr

/-- AutoScalingSpec: ordered sequence of metric entries. -/
structure AutoScalingSpec where
  metrics : List MetricsSpec
  deriving DecidableEq, Repr

/-- ComponentExtensionSpec: the extension settings the validators read. -/
structure ComponentExtensionSpec where
  scaleMetric : Option String
  scaleTarget : Option Int
  autoScaling : Option AutoScalingSpec
  deploymentStrategy : Option String
  deriving DecidableEq, Repr

/-- WorkerSpec of a multi-node predictor. -/
structure WorkerSpec where
  containers : List Container
  pipelineParallelSize : Option Int
  tensorParallelSize : Option Int
  deriving DecidableEq, Repr

/-- Built-in model implementation of a predictor: the fields that
validateMultiNodeVariables reads (container env, resources, storage URI). -/
structure ModelSpec where
  env : List EnvVar
  resources : List String
  storageUri : Option String
  deriving DecidableEq, Repr

/-- PredictorSpec.  The model field is the built-in model implementation
variant; otherImplementationCount abstracts how many further implementation
variant fields are populated (modelled from the spec, since the concrete
variant list and the capability check live outside the provided sources).
The boolean fields abstract the outcome of the implementation-intrinsic
Validate and the extension Validate, which are also outside the sources. -/
structure PredictorSpec where
  model : Option ModelSpec
  workerSpec : Option WorkerSpec
  containers : List Container
  otherImplementationCount : Nat
  implementationValid : Bool
  extensionSpecValid : Bool
  ext : ComponentExtensionSpec
  deriving DecidableEq, Repr

/-- Transformer or explainer component: implementation variant count and
validation outcomes abstracted as for PredictorSpec. -/
structure GenericComponentSpec where
  implementationCount : Nat
  implementationValid : Bool
  extensionSpecValid : Bool
  ext : ComponentExtensionSpec
  deriving DecidableEq, Repr

/-- InferenceService: name, annotations map (association list with unique
keys; lookup of an absent key yields the Go zero value), and the three
component slots. -/
structure InferenceService where
  name : String
  annotations : List (String × String)
  predictor : PredictorSpec
  transformer : Option GenericComponentSpec
  explainer : Option GenericComponentSpec
  deriving DecidableEq, Repr

/-- Error type: one constructor per distinct error site of the Go file, with
the data interpolated into the corresponding format string as payload. -/
inductive VError where
  | invalidISVCNameFormat (name fmt : String)
  | unsupportedAutoscalerClassType (value : String)
  | unknownAutoscalerClass (cls : String)
  | scaleMetricAutoScalingConflict
  | unknownAutoScalingType (cls ty : String)
  | unsupportedKEDAMetric (metric : String)
  | unsupportedKEDAMetricBackend (backend : String)
  | unsupportedHPAMetric (metric : String)
  | unsupportedKPAMetric (metric : String)
  | targetUtilizationPercentageRange
  | hpaTargetUtilizationRange
  | hpaTargetMemoryTooSmall
  | kedaTargetUtilizationRange
  | kedaTargetMemoryTooSmall
  | kedaAutoScalingUtilizationRange
  | kedaAutoScalingMemoryTooSmall
  | kedaEmptyQuery
  | kedaEmptyThreshold
  | kpaDeploymentStrategyNotSupported
  | kpaRpsTargetTooSmall
  | disallowedMultipleContainersInWorkerSpec (name : String)
  | disallowedWorkerSpecPipelineParallelSizeEnv (name : String)
  | disallowedWorkerSpecTensorParallelSizeEnv (name : String)
  | invalidUnknownGPUType (name : String)
  | missingStorageURI (name : String)
  | invalidNotSupportedStorageURIProtocol (name protocol : String)
  | invalidAutoScalerForMultiNode (name cls : String)
  | invalidWorkerSpecPipelineParallelSizeValue (name : String) (v : Int)
  | invalidWorkerSpecTensorParallelSizeValue (name : String) (v : Int)
  | exactlyOneImplementationRequired (component : String)
  | implementationValidationFailed (component : String)
  | extensionValidationFailed (component : String)
  | storageUriPresentInTransformer
  | nilPointerPanic
  deriving DecidableEq, Repr

/-- Name format constant IsvcNameFmt from the Go file. -/
def IsvcNameFmt : String := "[a-z]([-a-z0-9]*[a-z0-9])?"

/-- Modelled from the spec: annotation key constants.AutoscalerClass (the
constants package is not under the provided sources; only distinctness of
the keys matters). -/
def AutoscalerClassKey : String := "serving.kserve.io/autoscalerClass"

/-- Modelled from the spec: annotation key constants.AutoscalerMetrics. -/
def AutoscalerMetricsKey : String := "serving.kserve.io/metrics"

/-- Modelled from the spec: annotation key
constants.TargetUtilizationPercentage. -/
def TargetUtilizationPercentageKey : String := "serving.kserve.io/targetUtilizationPercentage"

/-- Deployment mode annotation key, literal in the Go source. -/
def DeploymentModeKey : String := "serving.kserve.io/deploymentMode"

/-- Knative autoscaling class annotation key (autoscaling.ClassAnnotationKey,
external package). -/
def KnativeClassKey : String := "autoscaling.knative.dev/class"

/-- Knative HPA class annotation value (autoscaling.HPA, external package). -/
def KnativeHPAValue : String := "hpa.autoscaling.knative.dev"

/-- Raw deployment mode value constants.RawDeployment. -/
def RawDeployment : String := "RawDeployment"

/-- Autoscaler class value constants.AutoscalerClassHPA. -/
def AutoscalerClassHPA : String := "hpa"

/-- Autoscaler class value constants.AutoscalerClassKeda. -/
def AutoscalerClassKeda : String := "keda"

/-- Autoscaler class value constants.AutoscalerClassKPA. -/
def AutoscalerClassKPA : String := "kpa"

/-- Autoscaler class value constants.AutoscalerClassExternal. -/
def AutoscalerClassExternal : String := "external"

/-- Modelled from the spec: the fixed allow-list of autoscaler classes,
HPA, KEDA, KPA, External (constants.AutoscalerAllowedClassList). -/
def AutoscalerAllowedClassList : List String :=
  [AutoscalerClassHPA, AutoscalerClassKeda, AutoscalerClassKPA, AutoscalerClassExternal]

/-- Scale metric value MetricCPU. -/
def MetricCPU : String := "cpu"

/-- Scale metric value MetricMemory. -/
def MetricMemory : String := "memory"

/-- Scale metric value MetricConcurrency. -/
def MetricConcurrency : String := "concurrency"

/-- Scale metric value MetricRPS. -/
def MetricRPS : String := "rps"

/-- AutoScaling entry type constants.AutoScalerResource. -/
def AutoScalerResource : String := "Resource"

/-- AutoScaling entry type constants.AutoScalerExternal. -/
def AutoScalerExternal : String := "External"

/-- Modelled from the spec: the HPA-allowed metric set (the spec gives
numeric bounds for CPU and Memory under the HPA evaluator). -/
def AutoscalerAllowedHPAMetricsList : List String := [MetricCPU, MetricMemory]

/-- Modelled from the spec: the KEDA-allowed metric set. -/
def AutoscalerAllowedKEDAMetricsList : List String := [MetricCPU, MetricMemory]

/-- Modelled from the spec: the KEDA-allowed metric backend set. -/
def AutoscalerAllowedKEDAMetricBackendList : List String := ["prometheus", "graphite"]

/-- Modelled from the spec: the KPA-allowed metric set, Concurrency and RPS. -/
def AutoScalerKPAMetricsAllowedList : List String := [MetricConcurrency, MetricRPS]

/-- Transformer container name constants.TransformerContainerName. -/
def TransformerContainerName : String := "transformer-container"

/-- Storage URI env key constants.CustomSpecStorageUriEnvVarKey. -/
def CustomSpecStorageUriEnvVarKey : String := "STORAGE_URI"

/-- Pipeline parallel size env name constants.PipelineParallelSizeEnvName. -/
def PipelineParallelSizeEnvName : String := "PIPELINE_PARALLEL_SIZE"

/-- Tensor parallel size env name constants.TensorParallelSizeEnvName. -/
def TensorParallelSizeEnvName : String := "TENSOR_PARALLEL_SIZE"

/-- Go map read with the zero-value default: annotations[key] yields the
empty string when the key is absent. -/
def getAnn (anns : List (String × String)) (key : String) : String :=
  (anns.lookup key).getD ""

/-- Modelled from the spec: utils.GetEnvVarValue existence component, the
LookupEnvVar capability resolver (found iff some entry has the key). -/
def envVarExists (env : List EnvVar) (key : String) : Bool :=
  env.any (fun e => e.name == key)

/-- Modelled from the spec: the process-wide GPU resource type allow-list. -/
def DefaultGpuResourceTypeList : List String :=
  ["nvidia.com/gpu", "amd.com/gpu", "intel.com/gpu", "habana.ai/gaudi"]

/-- Modelled from the spec: the annotation-provided custom GPU resource type
list that augments the process-wide allow-list. -/
def customGpuResourceTypes (anns : List (String × String)) : List String :=
  match anns.lookup "serving.kserve.io/gpu-resource-types" with
  | some v => v.splitOn ","
  | none => []

/-- Modelled from the spec: utils.IsUnknownGpuResourceType is true iff some
declared GPU resource type is outside the process-wide allow-list augmented
by the annotation-provided custom list.  The spec names no failure condition
for this resolver, so it is modelled as total. -/
def IsUnknownGpuResourceType (resources : List String) (anns : List (String × String)) : Bool :=
  resources.any (fun r => !((DefaultGpuResourceTypeList ++ customGpuResourceTypes anns).contains r))

/-- First non-nil error of a sequence of rule results; embeds both Go
fail-fast statement sequences and utils.FirstNonNilError. -/
def firstErrList : List (Option VError) → Option VError
  | [] => none
  | some e :: _ => some e
  | none :: rest => firstErrList rest

/-- Characters of a string before the first occurrence of the separator
colon-slash-slash; the whole string when the separator does not occur.
Mirrors the first element of strings.Split on that separator. -/
def protocolChars : List Char → List Char
  | [] => []
  | ':' :: '/' :: '/' :: _ => []
  | c :: rest => c :: protocolChars rest

/-- Scheme of a storage URI: strings.Split(uri, sep)[0] for the
colon-slash-slash separator. -/
def storageProtocol (uri : String) : String :=
  String.mk (protocolChars uri.data)

/-- Lowercase ASCII letter. -/
def isLowerAlpha (c : Char) : Bool := 'a' ≤ c && c ≤ 'z'

/-- Lowercase ASCII letter or digit. -/
def isLowerAlnum (c : Char) : Bool := isLowerAlpha c || ('0' ≤ c && c ≤ '9')

/-- Character allowed in the middle of an InferenceService name. -/
def isNameMid (c : Char) : Bool := c == '-' || isLowerAlnum c

/-- Matcher for the anchored regular expression IsvcRegexp built from
IsvcNameFmt: one lowercase letter, then optionally a possibly empty run of
middle characters followed by one lowercase letter or digit. -/
def matchesIsvcRegexp (s : String) : Bool :=
  match s.data with
  | [] => false
  | c :: rest =>
    isLowerAlpha c &&
      (match rest.reverse with
       | [] => true
       | last :: mids => isLowerAlnum last && mids.all isNameMid)

/-- Digit value of an ASCII digit character. -/
def digitVal (c : Char) : Option Nat :=
  if '0' ≤ c && c ≤ '9' then some (c.toNat - '0'.toNat) else none

/-- Accumulating decimal parse of a digit run; fails on a non-digit. -/
def digitsToNatAux : List Char → Nat → Option Nat
  | [], acc => some acc
  | c :: rest, acc =>
    match digitVal c with
    | some d => digitsToNatAux rest (acc * 10 + d)
    | none => none

/-- Decimal parse of a nonempty digit run. -/
def digitsToNat (ds : List Char) : Option Nat :=
  match ds with
  | [] => none
  | _ => digitsToNatAux ds 0

/-- Model of strconv.Atoi: optional sign then a nonempty digit run.  The Go
function additionally fails on 64-bit overflow; the only caller treats a
parse failure and an out-of-range value identically, so arbitrary precision
is observationally equivalent there. -/
def Atoi (s : String) : Option Int :=
  match s.data with
  | '-' :: ds => (digitsToNat ds).map (fun n => -(n : Int))
  | '+' :: ds => (digitsToNat ds).map (fun n => (n : Int))
  | ds => (digitsToNat ds).map (fun n => (n : Int))

/-- Validation of the isvc name: validateInferenceServiceName. -/
def validateInferenceServiceName (isvc : InferenceService) : Option VError :=
  if matchesIsvcRegexp isvc.name then none
  else some (.invalidISVCNameFormat isvc.name IsvcNameFmt)

/-- Validation of autoscaler KEDA metrics: validateKEDAMetrics. -/
def validateKEDAMetrics (metric : String) : Option VError :=
  if AutoscalerAllowedKEDAMetricsList.contains metric then none
  else some (.unsupportedKEDAMetric metric)

/-- Validation of autoscaler KEDA metric backends: validateKEDAMetricBackends. -/
def validateKEDAMetricBackends (backend : String) : Option VError :=
  if AutoscalerAllowedKEDAMetricBackendList.contains backend then none
  else some (.unsupportedKEDAMetricBackend backend)

/-- Validation of autoscaler HPA metrics: validateHPAMetrics. -/
def validateHPAMetrics (metric : String) : Option VError :=
  if AutoscalerAllowedHPAMetricsList.contains metric then none
  else some (.unsupportedHPAMetric metric)

/-- Validation of autoscaler KPA metrics: validateKPAMetrics. -/
def validateKPAMetrics (metric : String) : Option VError :=
  if AutoScalerKPAMetricsAllowedList.contains metric then none
  else some (.unsupportedKPAMetric metric)

/-- One entry of the KEDA-class AutoScaling metrics switch inside
validateInferenceServiceAutoscaler: a Resource entry validates its resource
name against the KEDA metric set, an External entry validates its backend,
any other tag is an unknown auto scaling type error.  The Go code
dereferences the pointers unconditionally; a nil pointer is embedded as the
nilPointerPanic error value. -/
def kedaAutoscalerMetricEntry (cls : String) (m : MetricsSpec) : Option VError :=
  if m.type == AutoScalerResource then
    match m.resource with
    | some r =>
      match r.name with
      | some n => validateKEDAMetrics n
      | none => some .nilPointerPanic
    | none => some .nilPointerPanic
  else if m.type == AutoScalerExternal then
    match m.external with
    | some e =>
      match e.backend with
      | some b => validateKEDAMetricBackends b
      | none => some .nilPointerPanic
    | none => some .nilPointerPanic
  else
    some (.unknownAutoScalingType cls m.type)

/-- KEDA case of the autoscaler class switch.  Returns some r when the Go
case executes a return statement with result r, and none when control falls
off the end of the case (scaleMetric nil and autoScaling nil or with an
empty metrics list), which in the Go function falls through to the
not-a-supported-class return after the loop. -/
def kedaClassBranch (cls : String) (c : ComponentExtensionSpec) : Option (Option VError) :=
  if c.scaleMetric.isSome && c.autoScaling.isSome then
    some (some .scaleMetricAutoScalingConflict)
  else
    match c.scaleMetric with
    | some m => some (validateKEDAMetrics m)
    | none =>
      match c.autoScaling with
      | some a =>
        match a.metrics with
        | [] => none
        | m :: _ => some (kedaAutoscalerMetricEntry cls m)
      | none => none

/-- The switch over a matched autoscaler class inside
validateInferenceServiceAutoscaler.  Result some r means the case returned
r; none means the case fell through. -/
def autoscalerClassSwitch (isvc : InferenceService) (value : String) : Option (Option VError) :=
  if value == AutoscalerClassHPA then
    some (match isvc.annotations.lookup AutoscalerMetricsKey with
          | some m => validateHPAMetrics m
          | none => none)
  else if value == AutoscalerClassKeda then
    kedaClassBranch value isvc.predictor.ext
  else if value == AutoscalerClassExternal then
    some none
  else
    some (some (.unknownAutoscalerClass value))

/-- Validation of the isvc autoscaler class:
validateInferenceServiceAutoscaler.  When the annotation is present the Go
code scans the allow-list; at the unique match it runs the class switch, and
when no match returned (value not in the list, or the matched case fell
through) it returns the not-a-supported-class error naming the value. -/
def validateInferenceServiceAutoscaler (isvc : InferenceService) : Option VError :=
  match isvc.annotations.lookup AutoscalerClassKey with
  | none => none
  | some value =>
    if AutoscalerAllowedClassList.contains value then
      match autoscalerClassSwitch isvc value with
      | some r => r
      | none => some (.unsupportedAutoscalerClassType value)
    else
      some (.unsupportedAutoscalerClassType value)

/-- Validation of the target utilization percentage annotation:
validateAutoscalerTargetUtilizationPercentage. -/
def validateAutoscalerTargetUtilizationPercentage (isvc : InferenceService) : Option VError :=
  match isvc.annotations.lookup TargetUtilizationPercentageKey with
  | none => none
  | some value =>
    match Atoi value with
    | none => some .targetUtilizationPercentageRange
    | some t => if t < 1 || t > 100 then some .targetUtilizationPercentageRange else none

/-- HPA per-component bounds evaluator: validateScalingHPACompExtension.
The scale target condition keeps the Go operator precedence: the
metric-is-cpu conjunction binds only the lower bound. -/
def validateScalingHPACompExtension (c : ComponentExtensionSpec) : Option VError :=
  let metric := c.scaleMetric.getD MetricCPU
  match validateHPAMetrics metric with
  | some e => some e
  | none =>
    match c.scaleTarget with
    | none => none
    | some target =>
      if (metric == MetricCPU && target < 1) || target > 100 then
        some .hpaTargetUtilizationRange
      else if metric == MetricMemory && target < 1 then
        some .hpaTargetMemoryTooSmall
      else none

/-- One AutoScaling metrics entry of the KEDA per-component bounds
evaluator.  Entries with a tag other than Resource or External are skipped
without error.  Unconditional Go pointer dereferences embed nil as the
nilPointerPanic error value; the average value dereference happens only
when the resource name is memory, matching the Go short-circuit. -/
def kedaCompAutoScalingEntry (m : MetricsSpec) : Option VError :=
  if m.type == AutoScalerResource then
    match m.resource with
    | none => some .nilPointerPanic
    | some r =>
      match r.name, r.targetAverageUtilization with
      | some n, some u =>
        if (n == MetricCPU && u < 1) || u > 100 then
          some .kedaAutoScalingUtilizationRange
        else if n == MetricMemory then
          match r.targetAverageValueBytes with
          | some v => if v < 1048576 then some .kedaAutoScalingMemoryTooSmall else none
          | none => some .nilPointerPanic
        else none
      | _, _ => some .nilPointerPanic
  else if m.type == AutoScalerExternal then
    match m.external with
    | none => some .nilPointerPanic
    | some e =>
      if e.query == "" then some .kedaEmptyQuery
      else
        match e.targetValue with
        | none => some .kedaEmptyThreshold
        | some _ => none
  else none

/-- Loop over the AutoScaling metrics entries of the KEDA evaluator,
returning the first error. -/
def kedaCompAutoScalingLoop : List MetricsSpec → Option VError
  | [] => none
  | m :: rest =>
    match kedaCompAutoScalingEntry m with
    | some e => some e
    | none => kedaCompAutoScalingLoop rest

/-- AutoScaling part of the KEDA per-component bounds evaluator. -/
def kedaCompAutoScalingPart (c : ComponentExtensionSpec) : Option VError :=
  match c.autoScaling with
  | some a => kedaCompAutoScalingLoop a.metrics
  | none => none

/-- KEDA per-component bounds evaluator: validateScalingKedaCompExtension.
The scale target condition keeps the Go operator precedence. -/
def validateScalingKedaCompExtension (c : ComponentExtensionSpec) : Option VError :=
  let metric := c.scaleMetric.getD MetricCPU
  match c.scaleTarget with
  | some target =>
    if (metric == MetricCPU && target < 1) || target > 100 then
      some .kedaTargetUtilizationRange
    else if metric == MetricMemory && target < 1 then
      some .kedaTargetMemoryTooSmall
    else kedaCompAutoScalingPart c
  | none => kedaCompAutoScalingPart c

/-- KPA per-component bounds evaluator: validateScalingKPACompExtension. -/
def validateScalingKPACompExtension (c : ComponentExtensionSpec) : Option VError :=
  if c.deploymentStrategy.isSome then some .kpaDeploymentStrategyNotSupported
  else
    let metric := c.scaleMetric.getD MetricConcurrency
    match validateKPAMetrics metric with
    | some e => some e
    | none =>
      match c.scaleTarget with
      | none => none
      | some target =>
        if metric == MetricRPS && target < 1 then some .kpaRpsTargetTooSmall else none

/-- Which per-component bounds evaluator the switch of
validateAutoScalingCompExtension selects, with its cases in source order. -/
inductive ScalingEvaluator where
  | hpa
  | keda
  | kpa
  deriving DecidableEq, Repr

/-- Selection switch of validateAutoScalingCompExtension over the deployment
mode, the Knative class annotation and the autoscaler class annotation. -/
def selectedScalingEvaluator (anns : List (String × String)) : ScalingEvaluator :=
  let dmAnn := getAnn anns DeploymentModeKey
  let classAnn := getAnn anns KnativeClassKey
  let asClassAnn := getAnn anns AutoscalerClassKey
  if dmAnn == RawDeployment || classAnn == KnativeHPAValue then .hpa
  else if dmAnn == RawDeployment || asClassAnn == AutoscalerClassKeda then .keda
  else .kpa

/-- Validation of scaling options component extensions:
validateAutoScalingCompExtension. -/
def validateAutoScalingCompExtension (anns : List (String × String))
    (c : ComponentExtensionSpec) : Option VError :=
  match selectedScalingEvaluator anns with
  | .hpa => validateScalingHPACompExtension c
  | .keda => validateScalingKedaCompExtension c
  | .kpa => validateScalingKPACompExtension c

/-- Pipeline parallel size bound of validateMultiNodeVariables: when set it
must not be less than 2 (head plus worker). -/
def ppsCheck (name : String) (ws : WorkerSpec) : Option VError :=
  match ws.pipelineParallelSize with
  | some pps =>
    if pps < 2 then some (.invalidWorkerSpecPipelineParallelSizeValue name pps) else none
  | none => none

/-- Tensor parallel size bound of validateMultiNodeVariables: when set it
must not be less than 1. -/
def tpsCheck (name : String) (ws : WorkerSpec) : Option VError :=
  match ws.tensorParallelSize with
  | some tps =>
    if tps < 1 then some (.invalidWorkerSpecTensorParallelSizeValue name tps) else none
  | none => none

/-- GPU type loop over the worker containers of validateMultiNodeVariables. -/
def multiNodeWorkerGpuLoop (name : String) (anns : List (String × String)) :
    List Container → Option VError
  | [] => none
  | c :: rest =>
    if IsUnknownGpuResourceType c.resources anns then some (.invalidUnknownGPUType name)
    else multiNodeWorkerGpuLoop name anns rest

/-- Checks of validateMultiNodeVariables that run only when the predictor
carries a built-in model: parallelism env overrides, GPU type, storage URI
presence and scheme, and the external autoscaler class requirement. -/
def multiNodeModelChecks (name : String) (anns : List (String × String))
    (m : ModelSpec) : Option VError :=
  if envVarExists m.env PipelineParallelSizeEnvName then
    some (.disallowedWorkerSpecPipelineParallelSizeEnv name)
  else if envVarExists m.env TensorParallelSizeEnvName then
    some (.disallowedWorkerSpecTensorParallelSizeEnv name)
  else if IsUnknownGpuResourceType m.resources anns then
    some (.invalidUnknownGPUType name)
  else
    match m.storageUri with
    | none => some (.missingStorageURI name)
    | some uri =>
      if storageProtocol uri != "pvc" then
        some (.invalidNotSupportedStorageURIProtocol name (storageProtocol uri))
      else if getAnn anns AutoscalerClassKey != AutoscalerClassExternal then
        some (.invalidAutoScalerForMultiNode name (getAnn anns AutoscalerClassKey))
      else none

/-- Validation of multi-node variables: validateMultiNodeVariables.  Applies
only when workerSpec is set; the worker container count check runs first,
the model-dependent checks run only when the built-in model is present, and
the parallel size bounds and the worker container GPU loop follow. -/
def validateMultiNodeVariables (isvc : InferenceService) : Option VError :=
  match isvc.predictor.workerSpec with
  | none => none
  | some ws =>
    if ws.containers.length > 1 then
      some (.disallowedMultipleContainersInWorkerSpec isvc.name)
    else
      firstErrList
        [(match isvc.predictor.model with
          | some m => multiNodeModelChecks isvc.name isvc.annotations m
          | none => none),
         ppsCheck isvc.name ws,
         tpsCheck isvc.name ws,
         multiNodeWorkerGpuLoop isvc.name isvc.annotations ws.containers]

/-- Loop of validateCollocationStorageURI over the predictor containers: the
first container carrying the transformer container name decides, and the
loop breaks after it. -/
def collocationContainerLoop : List Container → Option VError
  | [] => none
  | c :: rest =>
    if c.name == TransformerContainerName then
      if c.env.any (fun e => e.name == CustomSpecStorageUriEnvVarKey) then
        some .storageUriPresentInTransformer
      else none
    else collocationContainerLoop rest

/-- Collocation storage URI check: validateCollocationStorageURI. -/
def validateCollocationStorageURI (p : PredictorSpec) : Option VError :=
  collocationContainerLoop p.containers

/-- Modelled from the spec: validateExactlyOneImplementation rejects, naming
the component, unless exactly one implementation variant is populated (the
capability check itself is not under the provided sources). -/
def validateExactlyOneImplementation (component : String) (populatedCount : Nat) : Option VError :=
  if populatedCount == 1 then none
  else some (.exactlyOneImplementationRequired component)

/-- Number of populated implementation variants of the predictor: the
built-in model plus the abstracted further variants. -/
def predictorImplementationCount (p : PredictorSpec) : Nat :=
  (if p.model.isSome then 1 else 0) + p.otherImplementationCount

/-- Modelled from the spec: outcome of the implementation-intrinsic Validate
of the chosen variant, abstracted as a boolean. -/
def implementationCheck (component : String) (ok : Bool) : Option VError :=
  if ok then none else some (.implementationValidationFailed component)

/-- Modelled from the spec: outcome of the extension Validate, abstracted as
a boolean. -/
def extensionCheck (component : String) (ok : Bool) : Option VError :=
  if ok then none else some (.extensionValidationFailed component)

/-- Per-component body of the orchestrator loop: the exactly-one
implementation check, then the first non-nil error among the implementation
Validate, the extension Validate, and the autoscaling extension check. -/
def validateComponent (anns : List (String × String)) (component : String)
    (count : Nat) (implOk extOk : Bool) (c : ComponentExtensionSpec) : Option VError :=
  match validateExactlyOneImplementation component count with
  | some e => some e
  | none =>
    firstErrList
      [implementationCheck component implOk,
       extensionCheck component extOk,
       validateAutoScalingCompExtension anns c]

/-- Component slot step of the orchestrator loop: a nil slot is skipped. -/
def componentSlotCheck (anns : List (String × String)) (component : String) :
    Option GenericComponentSpec → Option VError
  | none => none
  | some t =>
    validateComponent anns component t.implementationCount t.implementationValid
      t.extensionSpecValid t.ext

/-- Orchestrator loop over the predictor, transformer and explainer slots. -/
def validateComponentsLoop (isvc : InferenceService) : Option VError :=
  firstErrList
    [validateComponent isvc.annotations "predictor"
       (predictorImplementationCount isvc.predictor) isvc.predictor.implementationValid
       isvc.predictor.extensionSpecValid isvc.predictor.ext,
     componentSlotCheck isvc.annotations "transformer" isvc.transformer,
     componentSlotCheck isvc.annotations "explainer" isvc.explainer]

/-- Validation orchestrator: validateInferenceService, the fixed fail-fast
rule sequence for create and update requests.  The warnings list of the Go
function is always nil, so only the error component is embedded. -/
def validateInferenceService (isvc : InferenceService) : Option VError :=
  firstErrList
    [validateInferenceServiceName isvc,
     validateInferenceServiceAutoscaler isvc,
     validateAutoscalerTargetUtilizationPercentage isvc,
     validateMultiNodeVariables isvc,
     validateCollocationStorageURI isvc.predictor,
     validateComponentsLoop isvc]

/-! Helper lemmas about the fail-fast sequencing. -/

theorem firstErrList_cons_some (e : VError) (rest : List (Option VError)) :
    firstErrList (some e :: rest) = some e := rfl

theorem firstErrList_cons_none (rest : List (Option VError)) :
    firstErrList (none :: rest) = firstErrList rest := rfl

theorem firstErrList_isSome_of_mem {l : List (Option VError)} {x : Option VError}
    (hx : x ∈ l) (hs : x.isSome = true) : (firstErrList l).isSome = true := by
  induction l with
  | nil => cases hx
  | cons h t ih =>
    cases h with
    | some e => simp [firstErrList]
    | none =>
      cases hx with
      | head => simp at hs
      | tail _ hmem => simpa [firstErrList] using ih hmem

theorem firstErrList_eq_none_iff (l : List (Option VError)) :
    firstErrList l = none ↔ ∀ x ∈ l, x = none := by
  induction l with
  | nil => simp [firstErrList]
  | cons h t ih =>
    cases h with
    | some e => simp [firstErrList]
    | none => simpa [firstErrList] using ih

/-! Shared fixture pieces for concrete evaluations. -/

/-- Component extension with nothing populated. -/
def emptyExt : ComponentExtensionSpec :=
  { scaleMetric := none, scaleTarget := none, autoScaling := none, deploymentStrategy := none }

/-- Predictor with a single abstract implementation variant, no worker spec,
no built-in model, no containers and an empty extension. -/
def plainPredictor : PredictorSpec :=
  { model := none, workerSpec := none, containers := [],
    otherImplementationCount := 1, implementationValid := true,
    extensionSpecValid := true, ext := emptyExt }

/-! Claim C1. -/

/-- Input exhibiting the unsupported-class error for an in-allow-list value:
the KEDA class annotation with a predictor extension populating neither
scaleMetric nor autoScaling. -/
def isvcClaim1 : InferenceService :=
  { name := "example", annotations := [(AutoscalerClassKey, AutoscalerClassKeda)],
    predictor := plainPredictor, transformer := none, explainer := none }

/-- C1: the claim states that the unsupported-autoscaler-class error is
returned if and only if the class annotation value lies outside the
allow-list.  The code violates the only-if direction: keda is in the
allow-list, yet when the predictor extension populates neither scaleMetric
nor autoScaling the matched KEDA switch case falls off its end, control
leaves the allow-list scan, and the function returns the
not-a-supported-autoscaler-class error naming keda. -/
theorem claim1_keda_fallthrough_returns_unsupported_class :
    AutoscalerAllowedClassList.contains AutoscalerClassKeda = true ∧
    isvcClaim1.predictor.ext.scaleMetric = none ∧
    isvcClaim1.predictor.ext.autoScaling = none ∧
    validateInferenceServiceAutoscaler isvcClaim1 =
      some (.unsupportedAutoscalerClassType AutoscalerClassKeda) := by
  refine ⟨by decide, rfl, rfl, by decide⟩

/-! Claim C7. -/

/-- C7: whenever the deployment-mode annotation equals RawDeployment, the
selection switch resolves to the HPA per-component bounds evaluator and
validateAutoScalingCompExtension behaves as that evaluator, for every
component extension and regardless of any autoscaler-class annotation; in
particular the raw-deployment disjunct of the KEDA case is unreachable. -/
theorem claim7_raw_deployment_selects_hpa (anns : List (String × String))
    (c : ComponentExtensionSpec) (h : getAnn anns DeploymentModeKey = RawDeployment) :
    selectedScalingEvaluator anns = .hpa ∧
    validateAutoScalingCompExtension anns c = validateScalingHPACompExtension c := by
  have hsel : selectedScalingEvaluator anns = .hpa := by
    simp [selectedScalingEvaluator, h]
  exact ⟨hsel, by simp [validateAutoScalingCompExtension, hsel]⟩

/-- Annotations map with raw deployment mode and the KEDA class set. -/
def annsClaim7 : List (String × String) :=
  [(DeploymentModeKey, RawDeployment), (AutoscalerClassKey, AutoscalerClassKeda)]

/-- Witness for C7 at a concrete annotations map carrying both the raw
deployment mode and the KEDA autoscaler class. -/
theorem claim7_witness :
    getAnn annsClaim7 DeploymentModeKey = RawDeployment ∧
    selectedScalingEvaluator annsClaim7 = .hpa ∧
    validateAutoScalingCompExtension annsClaim7 emptyExt =
      validateScalingHPACompExtension emptyExt :=
  ⟨by decide, (claim7_raw_deployment_selects_hpa annsClaim7 emptyExt (by decide)).1,
   (claim7_raw_deployment_selects_hpa annsClaim7 emptyExt (by decide)).2⟩

/-! Claim C8. -/

/-- C8: name validation accepts exactly the names matched by the anchored
grammar of IsvcNameFmt; when the name fails the grammar the whole
orchestrator returns the name-format error naming the bad name, before any
other rule can produce an error; the grammar accepts abc-123 and rejects
the empty name, an uppercase letter, a leading digit and a trailing
hyphen. -/
theorem claim8_name_validation (isvc : InferenceService) :
    (validateInferenceServiceName isvc = none ↔ matchesIsvcRegexp isvc.name = true) ∧
    (matchesIsvcRegexp isvc.name = false →
      validateInferenceService isvc =
        some (.invalidISVCNameFormat isvc.name IsvcNameFmt)) ∧
    (matchesIsvcRegexp "abc-123" = true ∧ matchesIsvcRegexp "" = false ∧
     matchesIsvcRegexp "Abc" = false ∧ matchesIsvcRegexp "1abc" = false ∧
     matchesIsvcRegexp "abc-" = false) := by
  refine ⟨?_, ?_, by decide⟩
  · cases hb : matchesIsvcRegexp isvc.name <;>
      simp [validateInferenceServiceName, hb]
  · intro h
    simp [validateInferenceService, validateInferenceServiceName, h, firstErrList]

/-- Service whose name starts with an uppercase letter. -/
def isvcClaim8 : InferenceService :=
  { name := "Abc", annotations := [], predictor := plainPredictor,
    transformer := none, explainer := none }

/-- Witness for C8: the uppercase name is rejected by the full orchestrator
with the name-format error. -/
theorem claim8_witness :
    matchesIsvcRegexp "Abc" = false ∧
    validateInferenceService isvcClaim8 =
      some (.invalidISVCNameFormat "Abc" IsvcNameFmt) :=
  ⟨by decide, (claim8_name_validation isvcClaim8).2.1 (by decide)⟩

/-! Claim C2. -/

/-- True iff some non-nil component slot has a populated implementation
variant count different from one. -/
def someImplCountBad (isvc : InferenceService) : Bool :=
  (predictorImplementationCount isvc.predictor != 1) ||
  (match isvc.transformer with
   | some t => t.implementationCount != 1
   | none => false) ||
  (match isvc.explainer with
   | some ex => ex.implementationCount != 1
   | none => false)

/-- True iff every non-nil component slot has exactly one populated
implementation variant. -/
def allImplCountsOne (isvc : InferenceService) : Bool :=
  (predictorImplementationCount isvc.predictor == 1) &&
  (match isvc.transformer with
   | some t => t.implementationCount == 1
   | none => true) &&
  (match isvc.explainer with
   | some ex => ex.implementationCount == 1
   | none => true)

/-- Per-slot residue of the non-implementation-count rules: the abstracted
implementation and extension Validate outcomes and the autoscaling
extension check. -/
def componentOtherRulesOk (anns : List (String × String)) :
    Option GenericComponentSpec → Bool
  | none => true
  | some t =>
    t.implementationValid && t.extensionSpecValid &&
      (validateAutoScalingCompExtension anns t.ext).isNone

/-- True iff every rule of the orchestrator other than the exactly-one
implementation counts passes. -/
def otherRulesPass (isvc : InferenceService) : Bool :=
  (validateInferenceServiceName isvc).isNone &&
  (validateInferenceServiceAutoscaler isvc).isNone &&
  (validateAutoscalerTargetUtilizationPercentage isvc).isNone &&
  (validateMultiNodeVariables isvc).isNone &&
  (validateCollocationStorageURI isvc.predictor).isNone &&
  isvc.predictor.implementationValid && isvc.predictor.extensionSpecValid &&
  (validateAutoScalingCompExtension isvc.annotations isvc.predictor.ext).isNone &&
  componentOtherRulesOk isvc.annotations isvc.transformer &&
  componentOtherRulesOk isvc.annotations isvc.explainer

theorem validateComponent_bad_count (anns : List (String × String)) (component : String)
    {n : Nat} (hn : n ≠ 1) (implOk extOk : Bool) (c : ComponentExtensionSpec) :
    validateComponent anns component n implOk extOk c =
      some (.exactlyOneImplementationRequired component) := by
  simp [validateComponent, validateExactlyOneImplementation, hn]

theorem validateComponentsLoop_isSome_of_bad (isvc : InferenceService)
    (h : someImplCountBad isvc = true) : (validateComponentsLoop isvc).isSome = true := by
  simp only [someImplCountBad, Bool.or_eq_true, bne_iff_ne, ne_eq] at h
  unfold validateComponentsLoop
  rcases h with (hp | ht) | he
  · rw [validateComponent_bad_count isvc.annotations "predictor" hp]
    rfl
  · refine firstErrList_isSome_of_mem
      (x := componentSlotCheck isvc.annotations "transformer" isvc.transformer)
      (by simp) ?_
    cases hts : isvc.transformer with
    | none => rw [hts] at ht; simp at ht
    | some t =>
      rw [hts] at ht
      simp only [bne_iff_ne, ne_eq] at ht
      simp only [componentSlotCheck]
      rw [validateComponent_bad_count isvc.annotations "transformer" ht]
      rfl
  · refine firstErrList_isSome_of_mem
      (x := componentSlotCheck isvc.annotations "explainer" isvc.explainer)
      (by simp) ?_
    cases hes : isvc.explainer with
    | none => rw [hes] at he; simp at he
    | some ex =>
      rw [hes] at he
      simp only [bne_iff_ne, ne_eq] at he
      simp only [componentSlotCheck]
      rw [validateComponent_bad_count isvc.annotations "explainer" he]
      rfl

theorem validateComponent_all_ok (anns : List (String × String)) (component : String)
    (c : ComponentExtensionSpec) (hauto : validateAutoScalingCompExtension anns c = none) :
    validateComponent anns component 1 true true c = none := by
  simp [validateComponent, validateExactlyOneImplementation, implementationCheck,
    extensionCheck, hauto, firstErrList]

/-- C2: the exactly-one-implementation rule, through the orchestrator.  The
capability check rejects naming the component whenever the populated variant
count is not one; a bad count on any non-nil component slot forces the
orchestrator to reject; and when every non-nil slot has exactly one variant
and every other rule passes, the orchestrator accepts. -/
theorem claim2_exactly_one_implementation (isvc : InferenceService) :
    (∀ (component : String) (count : Nat), count ≠ 1 →
      validateExactlyOneImplementation component count =
        some (.exactlyOneImplementationRequired component)) ∧
    (someImplCountBad isvc = true → (validateInferenceService isvc).isSome = true) ∧
    (allImplCountsOne isvc = true → otherRulesPass isvc = true →
      validateInferenceService isvc = none) := by
  refine ⟨?_, ?_, ?_⟩
  · intro component count hn
    simp [validateExactlyOneImplementation, hn]
  · intro h
    unfold validateInferenceService
    exact firstErrList_isSome_of_mem (x := validateComponentsLoop isvc)
      (by simp) (validateComponentsLoop_isSome_of_bad isvc h)
  · intro hc ho
    simp only [allImplCountsOne, Bool.and_eq_true, beq_iff_eq] at hc
    obtain ⟨⟨hcp, hct⟩, hce⟩ := hc
    simp only [otherRulesPass, Bool.and_eq_true, Option.isNone_iff_eq_none] at ho
    obtain ⟨⟨⟨⟨⟨⟨⟨⟨⟨h1, h2⟩, h3⟩, h4⟩, h5⟩, h6⟩, h7⟩, h8⟩, h9⟩, h10⟩ := ho
    have hloop : validateComponentsLoop isvc = none := by
      unfold validateComponentsLoop
      rw [firstErrList_eq_none_iff]
      intro x hx
      simp only [List.mem_cons, List.not_mem_nil, or_false] at hx
      rcases hx with hx | hx | hx
      · subst hx
        rw [hcp, h6, h7]
        exact validateComponent_all_ok isvc.annotations "predictor" isvc.predictor.ext h8
      · subst hx
        cases hts : isvc.transformer with
        | none => simp [componentSlotCheck]
        | some t =>
          rw [hts] at hct h9
          simp only [componentOtherRulesOk, Bool.and_eq_true,
            Option.isNone_iff_eq_none] at h9
          obtain ⟨⟨h9a, h9b⟩, h9c⟩ := h9
          simp only [beq_iff_eq] at hct
          simp only [componentSlotCheck]
          rw [hct, h9a, h9b]
          exact validateComponent_all_ok isvc.annotations "transformer" t.ext h9c
      · subst hx
        cases hes : isvc.explainer with
        | none => simp [componentSlotCheck]
        | some ex =>
          rw [hes] at hce h10
          simp only [componentOtherRulesOk, Bool.and_eq_true,
            Option.isNone_iff_eq_none] at h10
          obtain ⟨⟨h10a, h10b⟩, h10c⟩ := h10
          simp only [beq_iff_eq] at hce
          simp only [componentSlotCheck]
          rw [hce, h10a, h10b]
          exact validateComponent_all_ok isvc.annotations "explainer" ex.ext h10c
    unfold validateInferenceService
    rw [firstErrList_eq_none_iff]
    intro x hx
    simp only [List.mem_cons, List.not_mem_nil, or_false] at hx
    rcases hx with hx | hx | hx | hx | hx | hx <;> subst hx <;>
      first
      | exact h1
      | exact h2
      | exact h3
      | exact h4
      | exact h5
      | exact hloop

/-- Service with two populated implementation variants on the predictor. -/
def isvcClaim2Bad : InferenceService :=
  { name := "good-svc", annotations := [],
    predictor := { plainPredictor with otherImplementationCount := 2 },
    transformer := none, explainer := none }

/-- Service with exactly one populated variant on every non-nil slot and all
other rules passing. -/
def isvcClaim2Ok : InferenceService :=
  { name := "good-svc", annotations := [], predictor := plainPredictor,
    transformer := some { implementationCount := 1, implementationValid := true,
                          extensionSpecValid := true, ext := emptyExt },
    explainer := none }

/-- Witness for C2: the two-variant predictor is rejected and the
one-variant spec with all other rules passing is accepted. -/
theorem claim2_witness :
    (someImplCountBad isvcClaim2Bad = true ∧
     (validateInferenceService isvcClaim2Bad).isSome = true) ∧
    (allImplCountsOne isvcClaim2Ok = true ∧ otherRulesPass isvcClaim2Ok = true ∧
     validateInferenceService isvcClaim2Ok = none) :=
  ⟨⟨by decide, (claim2_exactly_one_implementation isvcClaim2Bad).2.1 (by decide)⟩,
   ⟨by decide, by decide,
    (claim2_exactly_one_implementation isvcClaim2Ok).2.2 (by decide) (by decide)⟩⟩

/-! Claim C3. -/

/-- Worker spec with no containers and unset parallel sizes. -/
def wsEmpty : WorkerSpec :=
  { containers := [], pipelineParallelSize := none, tensorParallelSize := none }

/-- Multi-node predictor without the built-in model implementation and hence
without any storage URI. -/
def isvcClaim3CE : InferenceService :=
  { name := "m", annotations := [],
    predictor := { plainPredictor with workerSpec := some wsEmpty },
    transformer := none, explainer := none }

/-- C3 counterexample: the claim demands a rejection for every spec with a
workerSpec whose model storage URI is missing, but a multi-node predictor
without the built-in model carries no storage URI and multi-node validation
still returns no error, because all storage checks sit inside the
model-is-present branch. -/
theorem claim3_counterexample :
    isvcClaim3CE.predictor.workerSpec.isSome = true ∧
    isvcClaim3CE.predictor.model = none ∧
    validateMultiNodeVariables isvcClaim3CE = none := by
  refine ⟨by decide, rfl, by decide⟩

theorem multiNodeModelChecks_missing_uri (name : String) (anns : List (String × String))
    (m : ModelSpec) (h : m.storageUri = none) :
    (multiNodeModelChecks name anns m).isSome = true := by
  unfold multiNodeModelChecks
  rw [h]
  split
  · rfl
  · split
    · rfl
    · split
      · rfl
      · rfl

theorem multiNodeModelChecks_bad_protocol_isSome (name : String)
    (anns : List (String × String)) (m : ModelSpec) (uri : String)
    (hu : m.storageUri = some uri) (hp : storageProtocol uri ≠ "pvc") :
    (multiNodeModelChecks name anns m).isSome = true := by
  have hb : (storageProtocol uri != "pvc") = true := by simpa [bne_iff_ne] using hp
  unfold multiNodeModelChecks
  rw [hu]
  split
  · rfl
  · split
    · rfl
    · split
      · rfl
      · simp [hb]

theorem multiNodeModelChecks_bad_protocol_eq (name : String)
    (anns : List (String × String)) (m : ModelSpec) (uri : String)
    (hu : m.storageUri = some uri) (hp : storageProtocol uri ≠ "pvc")
    (h1 : envVarExists m.env PipelineParallelSizeEnvName = false)
    (h2 : envVarExists m.env TensorParallelSizeEnvName = false)
    (h3 : IsUnknownGpuResourceType m.resources anns = false) :
    multiNodeModelChecks name anns m =
      some (.invalidNotSupportedStorageURIProtocol name (storageProtocol uri)) := by
  have hb : (storageProtocol uri != "pvc") = true := by simpa [bne_iff_ne] using hp
  simp [multiNodeModelChecks, h1, h2, h3, hu, hb]

/-- C3 amended: restricted to multi-node predictors that carry the built-in
model, the storage checks behave as claimed.  A missing storage URI always
forces a rejection; a storage URI whose scheme is not pvc always forces a
rejection, and the returned error is the unsupported-protocol error naming
the scheme whenever the checks preceding it in source order (worker
container count, parallelism environment overrides, GPU resource type)
pass. -/
theorem claim3_amended (isvc : InferenceService) (ws : WorkerSpec) (m : ModelSpec)
    (hws : isvc.predictor.workerSpec = some ws) (hm : isvc.predictor.model = some m) :
    (m.storageUri = none → (validateMultiNodeVariables isvc).isSome = true) ∧
    (∀ uri, m.storageUri = some uri → storageProtocol uri ≠ "pvc" →
      (validateMultiNodeVariables isvc).isSome = true ∧
      (ws.containers.length ≤ 1 →
       envVarExists m.env PipelineParallelSizeEnvName = false →
       envVarExists m.env TensorParallelSizeEnvName = false →
       IsUnknownGpuResourceType m.resources isvc.annotations = false →
       validateMultiNodeVariables isvc =
         some (.invalidNotSupportedStorageURIProtocol isvc.name (storageProtocol uri)))) := by
  have hunf : validateMultiNodeVariables isvc =
      (if ws.containers.length > 1 then
        some (.disallowedMultipleContainersInWorkerSpec isvc.name)
      else
        firstErrList
          [multiNodeModelChecks isvc.name isvc.annotations m,
           ppsCheck isvc.name ws, tpsCheck isvc.name ws,
           multiNodeWorkerGpuLoop isvc.name isvc.annotations ws.containers]) := by
    unfold validateMultiNodeVariables
    rw [hws, hm]
  constructor
  · intro hnone
    rw [hunf]
    split
    · rfl
    · exact firstErrList_isSome_of_mem
        (x := multiNodeModelChecks isvc.name isvc.annotations m) (by simp)
        (multiNodeModelChecks_missing_uri isvc.name isvc.annotations m hnone)
  · intro uri hu hp
    constructor
    · rw [hunf]
      split
      · rfl
      · exact firstErrList_isSome_of_mem
          (x := multiNodeModelChecks isvc.name isvc.annotations m) (by simp)
          (multiNodeModelChecks_bad_protocol_isSome isvc.name isvc.annotations m uri hu hp)
    · intro hlen h1 h2 h3
      rw [hunf, if_neg (by omega),
        multiNodeModelChecks_bad_protocol_eq isvc.name isvc.annotations m uri hu hp h1 h2 h3]
      rfl

/-- Model with an s3 storage URI. -/
def modelClaim3 : ModelSpec :=
  { env := [], resources := [], storageUri := some "s3://bucket/model" }

/-- Multi-node predictor with a built-in model whose storage URI uses the s3
scheme. -/
def isvcClaim3W : InferenceService :=
  { name := "m", annotations := [],
    predictor :=
      { model := some modelClaim3, workerSpec := some wsEmpty, containers := [],
        otherImplementationCount := 0, implementationValid := true,
        extensionSpecValid := true, ext := emptyExt },
    transformer := none, explainer := none }

/-- Witness for C3 amended: the s3 scheme is rejected with the
unsupported-protocol error naming s3. -/
theorem claim3_witness :
    storageProtocol "s3://bucket/model" = "s3" ∧
    validateMultiNodeVariables isvcClaim3W =
      some (.invalidNotSupportedStorageURIProtocol "m" (storageProtocol "s3://bucket/model")) :=
  ⟨by decide,
   ((claim3_amended isvcClaim3W wsEmpty modelClaim3 rfl rfl).2 "s3://bucket/model" rfl
      (by decide)).2 (by decide) (by decide) (by decide) (by decide)⟩

/-! Claim C10. -/

/-- Checks of validateMultiNodeVariables that remain when the predictor has
no built-in model: the worker container count, the parallel size bounds and
the worker container GPU loop.  Stated from the claim for comparison with
the source definition. -/
def multiNodeChecksWithoutModel (name : String) (anns : List (String × String))
    (ws : WorkerSpec) : Option VError :=
  if ws.containers.length > 1 then some (.disallowedMultipleContainersInWorkerSpec name)
  else
    firstErrList
      [ppsCheck name ws, tpsCheck name ws, multiNodeWorkerGpuLoop name anns ws.containers]

/-- C10: with a workerSpec but no built-in model, multi-node validation
coincides with the reduced check list (container count, parallel size
bounds, worker GPU types) for every spec, so the parallelism environment,
GPU-on-model, storage URI and autoscaler-class checks are skipped; in
particular, when the reduced checks pass the spec passes multi-node
validation whatever its annotations and despite having no storage URI. -/
theorem claim10_model_nil_skips_model_checks (isvc : InferenceService) (ws : WorkerSpec)
    (hm : isvc.predictor.model = none) (hws : isvc.predictor.workerSpec = some ws) :
    validateMultiNodeVariables isvc =
      multiNodeChecksWithoutModel isvc.name isvc.annotations ws ∧
    (ws.containers.length ≤ 1 → ppsCheck isvc.name ws = none →
     tpsCheck isvc.name ws = none →
     multiNodeWorkerGpuLoop isvc.name isvc.annotations ws.containers = none →
     validateMultiNodeVariables isvc = none) := by
  have heq : validateMultiNodeVariables isvc =
      multiNodeChecksWithoutModel isvc.name isvc.annotations ws := by
    unfold validateMultiNodeVariables multiNodeChecksWithoutModel
    rw [hws, hm]
    simp only [firstErrList_cons_none]
  refine ⟨heq, ?_⟩
  intro hlen hp ht hg
  rw [heq]
  unfold multiNodeChecksWithoutModel
  rw [if_neg (by omega), hp, ht, hg]
  rfl

/-- Worker spec with valid parallel sizes and no containers. -/
def wsClaim10 : WorkerSpec :=
  { containers := [], pipelineParallelSize := some 2, tensorParallelSize := some 1 }

/-- Multi-node predictor without a built-in model, with valid parallel
sizes, no worker containers, and a non-external autoscaler class. -/
def isvcClaim10W : InferenceService :=
  { name := "m", annotations := [(AutoscalerClassKey, AutoscalerClassHPA)],
    predictor := { plainPredictor with workerSpec := some wsClaim10 },
    transformer := none, explainer := none }

/-- Witness for C10: the model-free multi-node spec passes multi-node
validation although its autoscaler class is not external and it has no
storage URI. -/
theorem claim10_witness :
    getAnn isvcClaim10W.annotations AutoscalerClassKey ≠ AutoscalerClassExternal ∧
    isvcClaim10W.predictor.model = none ∧
    validateMultiNodeVariables isvcClaim10W = none :=
  ⟨by decide, rfl,
   (claim10_model_nil_skips_model_checks isvcClaim10W wsClaim10 rfl rfl).2
     (by decide) (by decide) (by decide) (by decide)⟩

/-! Claim C4. -/

/-- Transformer whose extension declares both scaleMetric and autoScaling. -/
def transformerClaim4 : GenericComponentSpec :=
  { implementationCount := 1, implementationValid := true, extensionSpecValid := true,
    ext := { scaleMetric := some MetricCPU, scaleTarget := none,
             autoScaling := some { metrics := [] }, deploymentStrategy := none } }

/-- Predictor extension declaring only scaleMetric. -/
def extClaim4Pred : ComponentExtensionSpec :=
  { scaleMetric := some MetricCPU, scaleTarget := none, autoScaling := none,
    deploymentStrategy := none }

/-- Spec with the KEDA class annotation whose transformer declares both
scaling configuration styles while the predictor does not. -/
def isvcClaim4CE : InferenceService :=
  { name := "x", annotations := [(AutoscalerClassKey, AutoscalerClassKeda)],
    predictor := { plainPredictor with ext := extClaim4Pred },
    transformer := some transformerClaim4, explainer := none }

/-- C4 counterexample: the claim demands the conflict rejection whenever any
non-nil component declares both scaleMetric and autoScaling under the KEDA
class, but the conflict check reads only the predictor extension: with the
conflict on the transformer the whole validation accepts. -/
theorem claim4_counterexample :
    isvcClaim4CE.annotations.lookup AutoscalerClassKey = some AutoscalerClassKeda ∧
    isvcClaim4CE.transformer = some transformerClaim4 ∧
    transformerClaim4.ext.scaleMetric.isSome = true ∧
    transformerClaim4.ext.autoScaling.isSome = true ∧
    validateInferenceService isvcClaim4CE = none := by
  refine ⟨by decide, rfl, by decide, by decide, by decide⟩

/-- C4 amended: under the KEDA class annotation, a predictor extension
declaring both scaleMetric and autoScaling is rejected with the conflict
error by autoscaler class resolution, regardless of the values of either
field, and the orchestrator rejects the spec. -/
theorem claim4_amended (isvc : InferenceService) (sm : String) (a : AutoScalingSpec)
    (hk : isvc.annotations.lookup AutoscalerClassKey = some AutoscalerClassKeda)
    (hm : isvc.predictor.ext.scaleMetric = some sm)
    (ha : isvc.predictor.ext.autoScaling = some a) :
    validateInferenceServiceAutoscaler isvc = some .scaleMetricAutoScalingConflict ∧
    (validateInferenceService isvc).isSome = true := by
  have hc : AutoscalerAllowedClassList.contains AutoscalerClassKeda = true := by decide
  have e1 : (AutoscalerClassKeda == AutoscalerClassHPA) = false := by decide
  have e2 : (AutoscalerClassKeda == AutoscalerClassKeda) = true := by decide
  have h1 : validateInferenceServiceAutoscaler isvc =
      some .scaleMetricAutoScalingConflict := by
    simp only [validateInferenceServiceAutoscaler, hk, hc, if_true,
      autoscalerClassSwitch, e1, e2, Bool.false_eq_true, if_false,
      kedaClassBranch, hm, ha, Option.isSome_some, Bool.and_self]
  refine ⟨h1, ?_⟩
  unfold validateInferenceService
  exact firstErrList_isSome_of_mem (x := validateInferenceServiceAutoscaler isvc)
    (by simp) (by rw [h1]; rfl)

/-- Spec with the KEDA class annotation whose predictor declares both
scaleMetric and autoScaling. -/
def isvcClaim4W : InferenceService :=
  { name := "x", annotations := [(AutoscalerClassKey, AutoscalerClassKeda)],
    predictor := { plainPredictor with
      ext := { scaleMetric := some MetricCPU, scaleTarget := none,
               autoScaling := some { metrics := [] }, deploymentStrategy := none } },
    transformer := none, explainer := none }

/-- Witness for C4 amended at a concrete spec. -/
theorem claim4_witness :
    validateInferenceServiceAutoscaler isvcClaim4W =
      some .scaleMetricAutoScalingConflict ∧
    (validateInferenceService isvcClaim4W).isSome = true :=
  claim4_amended isvcClaim4W MetricCPU { metrics := [] } (by decide) rfl rfl

/-! Claim C5. -/

/-- AutoScaling entry naming the allowed cpu resource. -/
def metricsCpuClaim5 : MetricsSpec :=
  { type := AutoScalerResource,
    resource := some { name := some MetricCPU, targetAverageUtilization := some 50,
                       targetAverageValueBytes := none },
    external := none }

/-- AutoScaling entry naming a resource outside the KEDA-allowed set. -/
def metricsBogusClaim5 : MetricsSpec :=
  { type := AutoScalerResource,
    resource := some { name := some "bogus", targetAverageUtilization := some 50,
                       targetAverageValueBytes := none },
    external := none }

/-- Predictor extension with an autoScaling list whose second entry is
disallowed. -/
def extClaim5 : ComponentExtensionSpec :=
  { scaleMetric := none, scaleTarget := none,
    autoScaling := some { metrics := [metricsCpuClaim5, metricsBogusClaim5] },
    deploymentStrategy := none }

/-- Spec with the KEDA class annotation and the two-entry autoScaling list. -/
def isvcClaim5 : InferenceService :=
  { name := "example", annotations := [(AutoscalerClassKey, AutoscalerClassKeda)],
    predictor := { plainPredictor with ext := extClaim5 },
    transformer := none, explainer := none }

/-- C5: the claim (and the loop in the source) say every autoScaling.metrics
entry is validated, so the disallowed second entry should cause rejection;
but each switch arm of the loop body returns on the first iteration, so the
second entry is never examined and class resolution accepts the spec. -/
theorem claim5_only_first_entry_checked :
    validateKEDAMetrics "bogus" = some (.unsupportedKEDAMetric "bogus") ∧
    isvcClaim5.predictor.ext.autoScaling =
      some { metrics := [metricsCpuClaim5, metricsBogusClaim5] } ∧
    validateInferenceServiceAutoscaler isvcClaim5 = none := by
  refine ⟨by decide, rfl, by decide⟩

/-! Claim C6. -/

/-- Extension with the memory metric and a target of 150. -/
def extClaim6 : ComponentExtensionSpec :=
  { scaleMetric := some MetricMemory, scaleTarget := some 150, autoScaling := none,
    deploymentStrategy := none }

/-- C6 counterexample: the claim says any memory target of at least 1 is
accepted by the HPA evaluator, but the Go operator precedence makes the
upper bound apply to every metric, so a memory target of 150 is rejected
with the utilization-range error. -/
theorem claim6_counterexample :
    extClaim6.scaleMetric = some MetricMemory ∧
    extClaim6.scaleTarget = some 150 ∧
    (1 : Int) ≤ 150 ∧
    validateScalingHPACompExtension extClaim6 = some .hpaTargetUtilizationRange := by
  refine ⟨rfl, rfl, by decide, by decide⟩

/-- C6 amended: under the HPA evaluator the metric defaults to CPU when
unset and must belong to the HPA-allowed set; a set CPU target is rejected
exactly when it lies outside the range from 1 to 100; and a set Memory
target is likewise rejected exactly when it lies outside that same range
(values above 100 fall to the utilization-range error). -/
theorem claim6_amended (c : ComponentExtensionSpec) :
    (c.scaleMetric = none →
      validateScalingHPACompExtension c =
        validateScalingHPACompExtension { c with scaleMetric := some MetricCPU }) ∧
    (∀ mtr, c.scaleMetric = some mtr →
      AutoscalerAllowedHPAMetricsList.contains mtr = false →
      validateScalingHPACompExtension c = some (.unsupportedHPAMetric mtr)) ∧
    (∀ t, c.scaleMetric = some MetricCPU → c.scaleTarget = some t →
      (validateScalingHPACompExtension c = none ↔ 1 ≤ t ∧ t ≤ 100)) ∧
    (∀ t, c.scaleMetric = some MetricMemory → c.scaleTarget = some t →
      (validateScalingHPACompExtension c = none ↔ 1 ≤ t ∧ t ≤ 100)) := by
  refine ⟨?_, ?_, ?_, ?_⟩
  · intro hm
    simp [validateScalingHPACompExtension, hm]
  · intro mtr hm hcont
    have hcont2 : mtr ∉ AutoscalerAllowedHPAMetricsList := by simpa using hcont
    simp [validateScalingHPACompExtension, validateHPAMetrics, hm, hcont2]
  · intro t hm ht
    have hcpu : AutoscalerAllowedHPAMetricsList.contains MetricCPU = true := by decide
    have ecc : (MetricCPU == MetricCPU) = true := by decide
    have ecm : (MetricCPU == MetricMemory) = false := by decide
    simp only [validateScalingHPACompExtension, validateHPAMetrics, hm, ht,
      Option.getD_some, hcpu, if_true, ecc, ecm, Bool.true_and, Bool.false_and,
      Bool.false_or, Bool.or_eq_true, decide_eq_true_eq, Bool.false_eq_true,
      if_false]
    split
    · rename_i hcond
      simp only [reduceCtorEq, false_iff]
      omega
    · rename_i hcond
      simp only [true_iff]
      omega
  · intro t hm ht
    have hmem : AutoscalerAllowedHPAMetricsList.contains MetricMemory = true := by decide
    have emc : (MetricMemory == MetricCPU) = false := by decide
    have emm : (MetricMemory == MetricMemory) = true := by decide
    simp only [validateScalingHPACompExtension, validateHPAMetrics, hm, ht,
      Option.getD_some, hmem, if_true, emc, emm, Bool.true_and, Bool.false_and,
      Bool.false_or, Bool.or_eq_true, decide_eq_true_eq, Bool.false_eq_true,
      if_false]
    split
    · rename_i hcond
      simp only [reduceCtorEq, false_iff]
      omega
    · rename_i hcond
      split
      · rename_i hcond2
        simp only [reduceCtorEq, false_iff]
        omega
      · rename_i hcond2
        simp only [true_iff]
        omega

/-- Extension with the memory metric and a target of 50. -/
def extClaim6W : ComponentExtensionSpec :=
  { scaleMetric := some MetricMemory, scaleTarget := some 50, autoScaling := none,
    deploymentStrategy := none }

/-- Witness for C6 amended: a memory target of 50 is accepted. -/
theorem claim6_witness : validateScalingHPACompExtension extClaim6W = none :=
  ((claim6_amended extClaim6W).2.2.2 50 rfl rfl).mpr (by decide)

/-! Claim C9. -/

/-- First transformer-named container of the counterexample, without the
storage URI key. -/
def containerClaim9A : Container :=
  { name := TransformerContainerName, env := [], resources := [] }

/-- Second transformer-named container of the counterexample, with the
storage URI key. -/
def containerClaim9B : Container :=
  { name := TransformerContainerName,
    env := [{ name := CustomSpecStorageUriEnvVarKey, value := "s3://bucket" }],
    resources := [] }

/-- Predictor whose container list holds two transformer-named containers,
only the second declaring the storage URI key. -/
def predClaim9CE : PredictorSpec :=
  { plainPredictor with containers := [containerClaim9A, containerClaim9B] }

/-- C9 counterexample: the claim demands rejection whenever the container
list includes a transformer-named container declaring the storage URI key,
but the loop breaks at the first transformer-named container, so a second
one declaring the key is never inspected and the check passes. -/
theorem claim9_counterexample :
    (predClaim9CE.containers.any (fun c =>
      c.name == TransformerContainerName &&
        c.env.any (fun e => e.name == CustomSpecStorageUriEnvVarKey))) = true ∧
    validateCollocationStorageURI predClaim9CE = none := by
  refine ⟨by decide, by decide⟩

/-- Collocation check as the claim describes it, restricted to the first
transformer-named container: stated from the claim for comparison with the
source loop. -/
def collocationSpecFn (p : PredictorSpec) : Option VError :=
  match p.containers.find? (fun c => c.name == TransformerContainerName) with
  | some c =>
    if c.env.any (fun e => e.name == CustomSpecStorageUriEnvVarKey) then
      some .storageUriPresentInTransformer
    else none
  | none => none

theorem collocationLoop_eq_find (l : List Container) :
    collocationContainerLoop l =
      (match l.find? (fun c => c.name == TransformerContainerName) with
       | some c =>
         if c.env.any (fun e => e.name == CustomSpecStorageUriEnvVarKey) then
           some .storageUriPresentInTransformer
         else none
       | none => none) := by
  induction l with
  | nil => rfl
  | cons c rest ih =>
    by_cases h : (c.name == TransformerContainerName) = true
    · simp [collocationContainerLoop, List.find?_cons_of_pos, h]
    · simp [collocationContainerLoop, List.find?_cons_of_neg, h, ih]

/-- C9 amended: the collocation check decides on the first transformer-named
container only; it rejects exactly when that container declares the storage
URI key, and in particular passes whenever no transformer-named container in
the list declares the key. -/
theorem claim9_amended (p : PredictorSpec) :
    validateCollocationStorageURI p = collocationSpecFn p ∧
    ((p.containers.all (fun c =>
        !(c.name == TransformerContainerName) ||
        !(c.env.any (fun e => e.name == CustomSpecStorageUriEnvVarKey)))) = true →
      validateCollocationStorageURI p = none) := by
  have h1 : validateCollocationStorageURI p = collocationSpecFn p := by
    unfold validateCollocationStorageURI collocationSpecFn
    exact collocationLoop_eq_find p.containers
  refine ⟨h1, ?_⟩
  intro hall
  rw [h1]
  unfold collocationSpecFn
  cases hf : p.containers.find? (fun c => c.name == TransformerContainerName) with
  | none => rfl
  | some c =>
    have hc : (c.name == TransformerContainerName) = true := by
      simpa using List.find?_some hf
    have hmem : c ∈ p.containers := List.mem_of_find?_eq_some hf
    have hcc := List.all_eq_true.mp hall c hmem
    rw [hc] at hcc
    simp only [Bool.not_true, Bool.false_or, Bool.not_eq_true'] at hcc
    simp [hcc]

/-- Container carrying the storage URI key under a non-transformer name. -/
def containerClaim9C : Container :=
  { name := "other",
    env := [{ name := CustomSpecStorageUriEnvVarKey, value := "s3://bucket" }],
    resources := [] }

/-- Predictor collocating a transformer container without the storage URI
key next to an unrelated container that has it. -/
def predClaim9W : PredictorSpec :=
  { plainPredictor with containers := [containerClaim9A, containerClaim9C] }

/-- Witness for C9 amended: with no transformer-named container declaring
the key, the check passes. -/
theorem claim9_witness : validateCollocationStorageURI predClaim9W = none :=
  (claim9_amended predClaim9W).2 (by decide)

end KServe

